import Mathlib

/-!
Verification development for the discriminated parse/validate pipeline
(`src/index.ts`): a class-transformer / class-validator based deserializer
for chat-exchange sessions.  Raw JSON-like trees are modelled by `Json`,
the transform stage (`plainToInstance` with `excludeExtraneousValues`) by
per-class parse functions, the discriminator callbacks of `@Type` by
`resolveMessageData` / `resolveAnswerQuestion`, and the validation stage
(`validate` of class-validator plus `validateClassInstance`) by per-class
validators producing nested `VError` trees.
-/

/-- Raw JSON-like values (the untyped input trees).  JavaScript `undefined`
is represented by `Option.none` at use sites, `null` by `Json.null`.
Numbers are modelled as integers (all numbers in the repository's data are
whole). -/
inductive Json where
  | null : Json
  | bool : Bool → Json
  | num : Int → Json
  | str : String → Json
  | arr : List Json → Json
  | obj : List (String × Json) → Json

/-- Property access `o["k"]` on a raw value: `none` models `undefined`
(missing key, or access on a non-object). -/
def jget (j : Json) (k : String) : Option Json :=
  match j with
  | .obj fs => (fs.find? (fun p => p.1 == k)).map (fun p => p.2)
  | _ => none

/-- Add a key/value pair to a raw object (used to state that the transform
ignores keys that are not part of the schema). Non-objects are unchanged. -/
def insertKey (j : Json) (k : String) (v : Json) : Json :=
  match j with
  | .obj fs => .obj ((k, v) :: fs)
  | _ => j

/-- One step of an optional chain `x?.k`: short-circuits on nullish
(`undefined` or `null`), otherwise accesses the property. -/
def chainField : Option Json → String → Option Json
  | none, _ => none
  | some .null, _ => none
  | some j, k => jget j k

/-- `startsWithL p l`: the char list `p` is an initial segment of `l`. -/
def startsWithL : List Char → List Char → Bool
  | [], _ => true
  | _ :: _, [] => false
  | p :: ps, c :: cs => p == c && startsWithL ps cs

/-- `subList pat l`: `pat` occurs contiguously inside `l`. -/
def subList (pat : List Char) : List Char → Bool
  | [] => pat.isEmpty
  | c :: cs => startsWithL pat (c :: cs) || subList pat cs

/-- JavaScript `String.prototype.includes` / substring occurrence. -/
def containsSub (s pat : String) : Bool :=
  subList pat.toList s.toList

/-- JavaScript `Array.prototype.includes` against a string needle
(strict equality: only string elements can match). -/
def arrIncludesStr (xs : List Json) (needle : String) : Bool :=
  xs.any fun x => match x with | .str s => s == needle | _ => false

/-- The tail of an optional chain `v?.includes(needle)` as it behaves in
JavaScript: nullish short-circuits to `undefined` (falsy, hence `false`);
arrays and strings have an `includes` method; any other non-nullish value
has no `includes` method, so the call throws a `TypeError`. -/
def chainIncludes (v : Option Json) (needle : String) : Except String Bool :=
  match v with
  | none => .ok false
  | some .null => .ok false
  | some (.arr xs) => .ok (arrIncludesStr xs needle)
  | some (.str s) => .ok (containsSub s needle)
  | some _ => .error "TypeError: includes is not a function"

/-- Strict equality `v === "s"` of a possibly-undefined raw value against a
string literal. -/
def jsStrictEqStr (v : Option Json) (s : String) : Bool :=
  match v with
  | some (.str t) => t == s
  | _ => false

/-- The four classes the `Message.data` `@Type` callback can return. -/
inductive DataVariant where
  | Answer
  | Hint
  | ButtonGroupQuestion
  | Question
deriving DecidableEq

/-- The `@Type` discriminator callback of `Message.data`
(src/index.ts lines 339-349):
`object?.sender === CANDIDATE` → `Answer`; else
`object?.data?.types?.includes("HINT")` → `Hint`; else
`object?.data?.types?.includes("BUTTON_GROUP_QUESTION")` →
`ButtonGroupQuestion`; else `Question`.  A thrown `TypeError` from the
`includes` call is an `.error`. -/
def resolveMessageData (object : Option Json) : Except String DataVariant :=
  if jsStrictEqStr (chainField object "sender") "CANDIDATE" then
    .ok .Answer
  else
    match chainIncludes (chainField (chainField object "data") "types") "HINT" with
    | .error e => .error e
    | .ok true => .ok .Hint
    | .ok false =>
      match chainIncludes (chainField (chainField object "data") "types") "BUTTON_GROUP_QUESTION" with
      | .error e => .error e
      | .ok true => .ok .ButtonGroupQuestion
      | .ok false => .ok .Question

/-- The `@Type` discriminator callback of `Answer.question`
(src/index.ts lines 302-308): `object?.question?.types?.includes(
"BUTTON_GROUP_QUESTION")` → `ButtonGroupQuestion`, else `Question`.
Returns `true` for the `ButtonGroupQuestion` branch. -/
def resolveAnswerQuestion (object : Option Json) : Except String Bool :=
  chainIncludes (chainField (chainField object "question") "types") "BUTTON_GROUP_QUESTION"

/-- A JavaScript `Date`: `some t` is a valid date with epoch time `t`,
`none` is an `Invalid Date` (`NaN` time value). -/
def JsDate := Option Int

/-- Model of the JavaScript date parser used by `new Date(string)`:
accepts `YYYY-MM-DD...` shaped strings (four digits, dash, two digits,
dash, two digits), anything else is uncoercible (`Invalid Date`). -/
def dateParse (s : String) : Option Int :=
  match s.toList with
  | y1 :: y2 :: y3 :: y4 :: '-' :: m1 :: m2 :: '-' :: d1 :: d2 :: _ =>
    if [y1, y2, y3, y4, m1, m2, d1, d2].all Char.isDigit then
      some (((((y1.toNat * 10 + y2.toNat) * 10 + y3.toNat) * 10 + y4.toNat) * 100
        + (m1.toNat * 10 + m2.toNat)) * 100 + (d1.toNat * 10 + d2.toNat) : Int)
    else none
  | _ => none

/-- The value a `@Type(() => Date)` field holds after transform. -/
inductive DateVal where
  | unset : DateVal
  | nullv : DateVal
  | date : JsDate → DateVal

/-- `@Type(() => Date)` coercion of a raw value (`new Date(v)`): absent
stays unset, `null` stays `null`, a string goes through the date parser
(uncoercible strings give an `Invalid Date`, no exception is thrown),
a number is an epoch time, anything else is an `Invalid Date`. -/
def coerceDate : Option Json → DateVal
  | none => .unset
  | some .null => .nullv
  | some (.str s) => .date (dateParse s)
  | some (.num n) => .date (some n)
  | some _ => .date none

/-- The value a single `@Type(() => C)` nested field holds after
transform: unset, a transformed instance (the raw value was an object),
or the raw value kept as-is (primitives, including `null`). -/
inductive TypedVal (α : Type) where
  | unset : TypedVal α
  | inst : α → TypedVal α
  | raw : Json → TypedVal α

/-- The value an array-typed `@Type(() => C)` field holds after
transform: unset, an array of per-element results, or the raw non-array
value kept as-is. -/
inductive TypedArrVal (α : Type) where
  | unset : TypedArrVal α
  | items : List (TypedVal α) → TypedArrVal α
  | raw : Json → TypedArrVal α

/-- Transform of a single typed field with a pure element parser. -/
def typedValOf (parse : Json → α) : Option Json → TypedVal α
  | none => .unset
  | some (Json.obj fs) => .inst (parse (Json.obj fs))
  | some j => .raw j

/-- Transform of an array typed field with a pure element parser. -/
def typedArrOf (parse : Json → α) : Option Json → TypedArrVal α
  | none => .unset
  | some (Json.arr xs) =>
    .items (xs.map fun x =>
      match x with
      | Json.obj fs => TypedVal.inst (parse (Json.obj fs))
      | j => TypedVal.raw j)
  | some j => .raw j

/-- Transform of a single typed field whose element parser can throw. -/
def typedValOfE (parse : Json → Except String α) : Option Json → Except String (TypedVal α)
  | none => .ok .unset
  | some (Json.obj fs) => (parse (Json.obj fs)).map .inst
  | some j => .ok (.raw j)

/-- Transform of an array typed field whose element parser can throw. -/
def typedArrOfE (parse : Json → Except String α) : Option Json → Except String (TypedArrVal α)
  | none => .ok .unset
  | some (Json.arr xs) => (xs.mapM (fun x => typedValOfE parse (some x))).map .items
  | some j => .ok (.raw j)

/-- Typed `QuestionContent` (fields `value`, `types`): plain `@Expose`
fields are copied raw, `none` when absent. -/
structure QuestionContentT where
  value : Option Json
  types : Option Json

/-- Typed `Trait` (`_id`, `parentId?`, `name`, `description?`). -/
structure TraitT where
  _id : Option Json
  parentId : Option Json
  name : Option Json
  description : Option Json

/-- Typed `QuestionRule` (`name`, `type`, `value`). -/
structure QuestionRuleT where
  name : Option Json
  type : Option Json
  value : Option Json

/-- Typed `QuestionOption` (`id`, `value`, `text`). -/
structure QuestionOptionT where
  id : Option Json
  value : Option Json
  text : Option Json

/-- Typed `Trigger` (`action`). -/
structure TriggerT where
  action : Option Json

/-- Typed `Style` (`buttonType`). -/
structure StyleT where
  buttonType : Option Json

/-- Typed `ButtonGroupOption` (a `QuestionOption` plus `triggers`,
`style`). -/
structure ButtonGroupOptionT where
  id : Option Json
  value : Option Json
  text : Option Json
  triggers : TypedArrVal TriggerT
  style : TypedVal StyleT

/-- Typed `Hint` (identical fields to `BaseElement`: `_id`, `types`,
`contents`). -/
structure HintT where
  _id : Option Json
  types : Option Json
  contents : TypedArrVal QuestionContentT

/-- Typed `Question` (`BaseElement` fields plus the `Question` fields). -/
structure QuestionT where
  _id : Option Json
  types : Option Json
  contents : TypedArrVal QuestionContentT
  masterId : Option Json
  parentId : Option Json
  traits : TypedArrVal TraitT
  rules : TypedArrVal QuestionRuleT
  options : TypedArrVal QuestionOptionT
  version : Option Json
  language : Option Json

/-- Typed `ButtonGroupQuestion`: a `Question` whose `options` are
`ButtonGroupOption`s. -/
structure ButtonGroupQuestionT where
  _id : Option Json
  types : Option Json
  contents : TypedArrVal QuestionContentT
  masterId : Option Json
  parentId : Option Json
  traits : TypedArrVal TraitT
  rules : TypedArrVal QuestionRuleT
  options : TypedArrVal ButtonGroupOptionT
  version : Option Json
  language : Option Json

/-- The variant stored in `Answer.question` after discriminator
resolution. -/
inductive AnswerQuestionT where
  | qn : QuestionT → AnswerQuestionT
  | bq : ButtonGroupQuestionT → AnswerQuestionT

/-- Typed `Answer` (`_id`, discriminated `question`, `value`, `text`). -/
structure AnswerT where
  _id : Option Json
  question : TypedVal AnswerQuestionT
  value : Option Json
  text : Option Json

/-- The variant stored in `Message.data` after discriminator
resolution. -/
inductive MessageDataT where
  | answer : AnswerT → MessageDataT
  | hint : HintT → MessageDataT
  | bgq : ButtonGroupQuestionT → MessageDataT
  | question : QuestionT → MessageDataT

/-- Typed `Message`. -/
structure MessageT where
  id : Option Json
  sender : Option Json
  label : Option Json
  data : TypedVal MessageDataT
  userAgent : Option Json
  timeTaken : Option Json
  time : DateVal

/-- Typed `Assessment`.  `extra` records properties carried by the
instance that have no schema decorator: the transform always produces
`[]`, but a hand-built instance handed directly to the validator may
carry some (they are what the `whitelist`/`forbidNonWhitelisted`
validator options react to). -/
structure AssessmentT where
  chatLogs : TypedArrVal MessageT
  extra : List String

/-- Transform of a raw `QuestionContent`: copy the two exposed fields. -/
def parseQuestionContent (j : Json) : QuestionContentT :=
  { value := jget j "value", types := jget j "types" }

/-- Transform of a raw `Trait`. -/
def parseTrait (j : Json) : TraitT :=
  { _id := jget j "_id", parentId := jget j "parentId",
    name := jget j "name", description := jget j "description" }

/-- Transform of a raw `QuestionRule`. -/
def parseQuestionRule (j : Json) : QuestionRuleT :=
  { name := jget j "name", type := jget j "type", value := jget j "value" }

/-- Transform of a raw `QuestionOption`. -/
def parseQuestionOption (j : Json) : QuestionOptionT :=
  { id := jget j "id", value := jget j "value", text := jget j "text" }

/-- Transform of a raw `Trigger`. -/
def parseTrigger (j : Json) : TriggerT :=
  { action := jget j "action" }

/-- Transform of a raw `Style`. -/
def parseStyle (j : Json) : StyleT :=
  { buttonType := jget j "buttonType" }

/-- Transform of a raw `ButtonGroupOption`. -/
def parseButtonGroupOption (j : Json) : ButtonGroupOptionT :=
  { id := jget j "id", value := jget j "value", text := jget j "text",
    triggers := typedArrOf parseTrigger (jget j "triggers"),
    style := typedValOf parseStyle (jget j "style") }

/-- Transform of a raw `Hint` (`BaseElement` fields only). -/
def parseHint (j : Json) : HintT :=
  { _id := jget j "_id", types := jget j "types",
    contents := typedArrOf parseQuestionContent (jget j "contents") }

/-- Transform of a raw `Question`. -/
def parseQuestion (j : Json) : QuestionT :=
  { _id := jget j "_id", types := jget j "types",
    contents := typedArrOf parseQuestionContent (jget j "contents"),
    masterId := jget j "masterId", parentId := jget j "parentId",
    traits := typedArrOf parseTrait (jget j "traits"),
    rules := typedArrOf parseQuestionRule (jget j "rules"),
    options := typedArrOf parseQuestionOption (jget j "options"),
    version := jget j "version", language := jget j "language" }

/-- Transform of a raw `ButtonGroupQuestion` (its `options` become
`ButtonGroupOption`s). -/
def parseButtonGroupQuestion (j : Json) : ButtonGroupQuestionT :=
  { _id := jget j "_id", types := jget j "types",
    contents := typedArrOf parseQuestionContent (jget j "contents"),
    masterId := jget j "masterId", parentId := jget j "parentId",
    traits := typedArrOf parseTrait (jget j "traits"),
    rules := typedArrOf parseQuestionRule (jget j "rules"),
    options := typedArrOf parseButtonGroupOption (jget j "options"),
    version := jget j "version", language := jget j "language" }

/-- Transform of a raw `Answer`: the `question` field's target class is
chosen by `resolveAnswerQuestion` on the raw sibling context; a
`TypeError` thrown by the discriminator aborts the transform. -/
def parseAnswer (j : Json) : Except String AnswerT :=
  match resolveAnswerQuestion (some j) with
  | .error e => .error e
  | .ok isBGQ =>
    .ok { _id := jget j "_id",
          question :=
            if isBGQ then
              typedValOf (fun x => AnswerQuestionT.bq (parseButtonGroupQuestion x)) (jget j "question")
            else
              typedValOf (fun x => AnswerQuestionT.qn (parseQuestion x)) (jget j "question"),
          value := jget j "value", text := jget j "text" }

/-- Transform of a raw `Message`: the `data` field's target class is
chosen by `resolveMessageData` on the raw message; `time` goes through
the `Date` coercion. -/
def parseMessage (j : Json) : Except String MessageT :=
  match resolveMessageData (some j) with
  | .error e => .error e
  | .ok v =>
    match (match v with
           | .Answer => typedValOfE (fun x => (parseAnswer x).map MessageDataT.answer) (jget j "data")
           | .Hint => .ok (typedValOf (fun x => MessageDataT.hint (parseHint x)) (jget j "data"))
           | .ButtonGroupQuestion => .ok (typedValOf (fun x => MessageDataT.bgq (parseButtonGroupQuestion x)) (jget j "data"))
           | .Question => .ok (typedValOf (fun x => MessageDataT.question (parseQuestion x)) (jget j "data"))) with
    | .error e => .error e
    | .ok dataVal =>
      .ok { id := jget j "id", sender := jget j "sender", label := jget j "label",
            data := dataVal, userAgent := jget j "userAgent",
            timeTaken := jget j "timeTaken", time := coerceDate (jget j "time") }

/-- Transform of a raw `Assessment`: only `chatLogs` is declared; every
other raw key is dropped (`excludeExtraneousValues: true`), hence
`extra := []`. -/
def parseAssessment (j : Json) : Except String AssessmentT :=
  match typedArrOfE parseMessage (jget j "chatLogs") with
  | .error e => .error e
  | .ok logs => .ok { chatLogs := logs, extra := [] }

/-- `JSON.stringify` of a string (as used in the failure logs). -/
def jsonStringifyStr (s : String) : String :=
  "\"" ++ s ++ "\""

/-- The message logged by `parsePlainObject` when `plainToInstance`
throws: `Parsing object to <type> failed: <JSON.stringify(message)>`. -/
def parseFailLogMsg (typeName msg : String) : String :=
  "Parsing object to " ++ typeName ++ " failed: " ++ jsonStringifyStr msg

/-- `parsePlainObject({type: Assessment, plainObject})`
(src/index.ts lines 32-59): runs `plainToInstance` with
`excludeExtraneousValues: true, exposeUnsetFields: true`; when the
transform throws it rethrows `new Error(error.message)` — the propagated
error carries only the original message. -/
def parsePlainObjectAssessment (plainObject : Json) : Except String AssessmentT :=
  match parseAssessment plainObject with
  | .ok inst_ => .ok inst_
  | .error e => .error e

/-- A class-validator `ValidationError` node: the failing property name,
the names of its directly failing constraints, and child errors for
nested validation. -/
inductive VError where
  | mk : String → List String → List VError → VError

/-- The `property` field of a `ValidationError`. -/
def VError.property : VError → String
  | .mk p _ _ => p

/-- The directly failing constraint names of a `ValidationError`. -/
def VError.constraintsOf : VError → List String
  | .mk _ c _ => c

/-- The child errors of a `ValidationError`. -/
def VError.childrenOf : VError → List VError
  | .mk _ _ ch => ch

/-- Nullish test (`undefined` or `null`), as used by `@IsOptional` and
`@IsDefined`. -/
def isNullish : Option Json → Bool
  | none => true
  | some .null => true
  | _ => false

/-- `@IsString`. -/
def vIsString : Option Json → Bool
  | some (.str _) => true
  | _ => false

/-- `@IsNumber`. -/
def vIsNumber : Option Json → Bool
  | some (.num _) => true
  | _ => false

/-- `@IsArray` on a raw-copied field. -/
def vIsArrayJ : Option Json → Bool
  | some (.arr _) => true
  | _ => false

/-- `@IsNotEmpty` (`value !== '' && value != null`). -/
def vIsNotEmpty : Option Json → Bool
  | none => false
  | some .null => false
  | some (.str s) => !(s == "")
  | some _ => true

/-- `@IsEnum(E)` on a single value: a string drawn from the allowed
vocabulary. -/
def vIsEnumStr (allowed : List String) : Option Json → Bool
  | some (.str s) => allowed.contains s
  | _ => false

/-- `@IsEnum(E, {each: true})`: the value is an array all of whose
elements are strings from the allowed vocabulary. -/
def vIsEnumEach (allowed : List String) : Option Json → Bool
  | some (.arr xs) => xs.all fun x => match x with | .str s => allowed.contains s | _ => false
  | _ => false

/-- `@IsString({each: true})`. -/
def vIsStringEach : Option Json → Bool
  | some (.arr xs) => xs.all fun x => match x with | .str _ => true | _ => false
  | _ => false

/-- Hex digit test for `isMongoId`. -/
def isHexChar (c : Char) : Bool :=
  c.isDigit || (('a' ≤ c && c ≤ 'f') || ('A' ≤ c && c ≤ 'F'))

/-- `@IsMongoId`: a 24 character hex string. -/
def vIsMongoId : Option Json → Bool
  | some (.str s) => s.length == 24 && s.toList.all isHexChar
  | _ => false

/-- Run the constraint list of one plain property and produce its error
entry (if any).  `optional` models `@IsOptional`: a nullish value skips
every other constraint. -/
def checkProp (name : String) (optional : Bool) (v : Option Json)
    (checks : List (String × (Option Json → Bool))) : List VError :=
  if optional && isNullish v then []
  else
    let failed := (checks.filter (fun c => !(c.2 v))).map (fun c => c.1)
    if failed.isEmpty then [] else [.mk name failed []]

/-- Validate a single `@ValidateNested` typed property.  `hasIsDefined`
models an accompanying `@IsDefined`; a nullish value without
`@IsOptional` fails it (or fails nested validation when `@IsDefined` is
absent); a raw non-object value fails nested validation; an instance is
validated recursively and its violations become children of this
property's error. -/
def checkTypedProp {α : Type} (name : String) (optional : Bool) (hasIsDefined : Bool)
    (v : TypedVal α) (inner : α → List VError) : List VError :=
  match v with
  | .unset =>
    if optional then []
    else [.mk name [if hasIsDefined then "isDefined" else "nestedValidation"] []]
  | .raw .null =>
    if optional then []
    else [.mk name [if hasIsDefined then "isDefined" else "nestedValidation"] []]
  | .inst a =>
    let ch := inner a
    if ch.isEmpty then [] else [.mk name [] ch]
  | .raw _ => [.mk name ["nestedValidation"] []]

/-- Validate one array-typed property carrying `@IsArray` and
`@ValidateNested({each: true})`.  Element errors are children whose
property is the element index. -/
def checkTypedArrProp {α : Type} (name : String) (optional : Bool)
    (v : TypedArrVal α) (inner : α → List VError) : List VError :=
  match v with
  | .unset => if optional then [] else [.mk name ["isArray"] []]
  | .raw .null => if optional then [] else [.mk name ["isArray"] []]
  | .raw _ => [.mk name ["isArray"] []]
  | .items xs =>
    let ch := (xs.enum.map (fun p =>
      match p.2 with
      | .inst a =>
        let e := inner a
        if e.isEmpty then [] else [VError.mk (toString p.1) [] e]
      | .unset => []
      | .raw _ => [VError.mk (toString p.1) ["nestedValidation"] []])).flatten
    if ch.isEmpty then [] else [.mk name [] ch]

/-- Validate a `@Type(() => Date)` property with `@IsDate`. -/
def checkDateProp (name : String) (optional : Bool) (v : DateVal) : List VError :=
  match v with
  | .unset => if optional then [] else [.mk name ["isDate"] []]
  | .nullv => if optional then [] else [.mk name ["isDate"] []]
  | .date (some _) => []
  | .date none => [.mk name ["isDate"] []]

/-- The `MessageSender` vocabulary. -/
def messageSenderVals : List String := ["AGENT", "CANDIDATE"]

/-- The `QuestionType` vocabulary. -/
def questionTypeVals : List String :=
  ["HINT", "FTQ", "MCQ", "VOICE", "VIDEO", "SLIDER", "DROPDOWN", "BUTTON_GROUP_QUESTION"]

/-- The `QuestionContentType` vocabulary. -/
def questionContentTypeVals : List String := ["TEXT", "VOICE", "VIDEO", "SLIDER"]

/-- The `RuleName` vocabulary. -/
def ruleNameVals : List String :=
  ["maxTextLength", "minTextLength", "recommendedTextLength",
   "minVoiceSeconds", "maxVoiceSeconds", "recommendedVoiceSeconds"]

/-- The `ButtonType` vocabulary. -/
def buttonTypeVals : List String := ["PRIMARY", "SECONDARY", "DEFAULT"]

/-- Validation of a `QuestionContent` instance. -/
def validateQuestionContent (c : QuestionContentT) : List VError :=
  checkProp "value" false c.value [("isString", vIsString)]
  ++ checkProp "types" false c.types
      [("isString", vIsStringEach), ("isEnum", vIsEnumEach questionContentTypeVals)]

/-- Validation of a `Trait` instance. -/
def validateTrait (t : TraitT) : List VError :=
  checkProp "_id" false t._id [("isMongoId", vIsMongoId)]
  ++ checkProp "parentId" true t.parentId [("isString", vIsString)]
  ++ checkProp "name" false t.name [("isString", vIsString)]
  ++ checkProp "description" true t.description [("isString", vIsString)]

/-- Validation of a `QuestionRule` instance. -/
def validateQuestionRule (r : QuestionRuleT) : List VError :=
  checkProp "name" false r.name [("isString", vIsString), ("isEnum", vIsEnumStr ruleNameVals)]
  ++ checkProp "type" false r.type [("isString", vIsString)]
  ++ checkProp "value" false r.value [("isNumber", vIsNumber)]

/-- Validation of a `QuestionOption` instance. -/
def validateQuestionOption (o : QuestionOptionT) : List VError :=
  checkProp "id" false o.id [("isString", vIsString)]
  ++ checkProp "value" false o.value [("isString", vIsString)]
  ++ checkProp "text" false o.text [("isString", vIsString)]

/-- Validation of a `Trigger` instance. -/
def validateTrigger (t : TriggerT) : List VError :=
  checkProp "action" false t.action [("isString", vIsString)]

/-- Validation of a `Style` instance. -/
def validateStyle (s : StyleT) : List VError :=
  checkProp "buttonType" false s.buttonType
    [("isString", vIsString), ("isEnum", vIsEnumStr buttonTypeVals)]

/-- Validation of a `ButtonGroupOption` instance. -/
def validateButtonGroupOption (o : ButtonGroupOptionT) : List VError :=
  checkProp "id" false o.id [("isString", vIsString)]
  ++ checkProp "value" false o.value [("isString", vIsString)]
  ++ checkProp "text" false o.text [("isString", vIsString)]
  ++ checkTypedArrProp "triggers" false o.triggers validateTrigger
  ++ checkTypedProp "style" false true o.style validateStyle

/-- Validation of a `Hint` instance (the `BaseElement` constraints). -/
def validateHint (h : HintT) : List VError :=
  checkProp "_id" false h._id [("isMongoId", vIsMongoId)]
  ++ checkProp "types" false h.types
      [("isString", vIsStringEach), ("isEnum", vIsEnumEach questionTypeVals),
       ("isArray", vIsArrayJ)]
  ++ checkTypedArrProp "contents" false h.contents validateQuestionContent

/-- Validation of a `Question` instance. -/
def validateQuestion (q : QuestionT) : List VError :=
  checkProp "_id" false q._id [("isMongoId", vIsMongoId)]
  ++ checkProp "types" false q.types
      [("isString", vIsStringEach), ("isEnum", vIsEnumEach questionTypeVals),
       ("isArray", vIsArrayJ)]
  ++ checkTypedArrProp "contents" false q.contents validateQuestionContent
  ++ checkProp "masterId" true q.masterId [("isString", vIsString)]
  ++ checkProp "parentId" true q.parentId [("isMongoId", vIsMongoId)]
  ++ checkTypedArrProp "traits" true q.traits validateTrait
  ++ checkTypedArrProp "rules" true q.rules validateQuestionRule
  ++ checkTypedArrProp "options" true q.options validateQuestionOption
  ++ checkProp "version" true q.version [("isNumber", vIsNumber)]
  ++ checkProp "language" true q.language [("isString", vIsString)]

/-- Validation of a `ButtonGroupQuestion` instance (the `options`
property keeps the `@IsOptional` inherited from `Question` and validates
its elements as `ButtonGroupOption`s). -/
def validateButtonGroupQuestion (q : ButtonGroupQuestionT) : List VError :=
  checkProp "_id" false q._id [("isMongoId", vIsMongoId)]
  ++ checkProp "types" false q.types
      [("isString", vIsStringEach), ("isEnum", vIsEnumEach questionTypeVals),
       ("isArray", vIsArrayJ)]
  ++ checkTypedArrProp "contents" false q.contents validateQuestionContent
  ++ checkProp "masterId" true q.masterId [("isString", vIsString)]
  ++ checkProp "parentId" true q.parentId [("isMongoId", vIsMongoId)]
  ++ checkTypedArrProp "traits" true q.traits validateTrait
  ++ checkTypedArrProp "rules" true q.rules validateQuestionRule
  ++ checkTypedArrProp "options" true q.options validateButtonGroupOption
  ++ checkProp "version" true q.version [("isNumber", vIsNumber)]
  ++ checkProp "language" true q.language [("isString", vIsString)]

/-- Validation of the `question` slot of an `Answer`. -/
def validateAnswerQuestion : AnswerQuestionT → List VError
  | .qn q => validateQuestion q
  | .bq b => validateButtonGroupQuestion b

/-- Validation of an `Answer` instance. -/
def validateAnswer (a : AnswerT) : List VError :=
  checkProp "_id" false a._id [("isString", vIsString), ("isNotEmpty", vIsNotEmpty)]
  ++ checkTypedProp "question" false true a.question validateAnswerQuestion
  ++ checkProp "value" false a.value [("isString", vIsString), ("isNotEmpty", vIsNotEmpty)]
  ++ checkProp "text" false a.text [("isString", vIsString), ("isNotEmpty", vIsNotEmpty)]

/-- Validation of the `data` slot of a `Message`. -/
def validateMessageData : MessageDataT → List VError
  | .answer a => validateAnswer a
  | .hint h => validateHint h
  | .bgq b => validateButtonGroupQuestion b
  | .question q => validateQuestion q

/-- Validation of a `Message` instance. -/
def validateMessage (m : MessageT) : List VError :=
  checkProp "id" false m.id [("isString", vIsString)]
  ++ checkProp "sender" false m.sender [("isEnum", vIsEnumStr messageSenderVals)]
  ++ checkProp "label" true m.label [("isString", vIsString)]
  ++ checkTypedProp "data" false true m.data validateMessageData
  ++ checkProp "userAgent" true m.userAgent [("isString", vIsString)]
  ++ checkProp "timeTaken" true m.timeTaken [("isNumber", vIsNumber)]
  ++ checkDateProp "time" true m.time

/-- Validation of an `Assessment` instance through its decorated
properties (`chatLogs` only). -/
def validateAssessment (a : AssessmentT) : List VError :=
  checkTypedArrProp "chatLogs" true a.chatLogs validateMessage

/-- The `ValidatorOptions` fields the code touches; `none` means the
caller did not set the option. -/
structure VOptions where
  whitelist : Option Bool := none
  forbidNonWhitelisted : Option Bool := none

/-- The option merge `{whitelist: true, forbidNonWhitelisted: true,
...options}` of `validateClassInstance`: a caller-set value overrides the
default `true`. -/
def effWhitelist (o : VOptions) : Bool := o.whitelist.getD true

/-- Effective `forbidNonWhitelisted` after the default merge. -/
def effForbidNonWhitelisted (o : VOptions) : Bool := o.forbidNonWhitelisted.getD true

/-- class-validator `validate(instance, validatorOptions)` on an
`Assessment` instance: the executor runs `whitelist()` before the
general per-property loop, so when both `whitelist` and
`forbidNonWhitelisted` are in force one `whitelistValidation` error per
undecorated property is pushed first, followed by the
decorated-property errors. -/
def validateFull (a : AssessmentT) (wl fnw : Bool) : List VError :=
  (if wl && fnw then a.extra.map (fun p => VError.mk p ["whitelistValidation"] []) else [])
    ++ validateAssessment a

/-- The property list the code puts in the thrown message:
`errors.map((error) => error.property)` (top-level properties only). -/
def thrownProps (errs : List VError) : List String :=
  errs.map VError.property

/-- The default `errorMsgTitle` of `validateClassInstance`. -/
def defaultErrorMsgTitle : String := "The following field values do not meet constraints"

/-- `validateClassInstance({instance, type: Assessment, options,
errorMsgTitle})` (src/index.ts lines 61-90): merges the default
validator options, runs `validate`, and when errors exist throws
`new Error(errorMsgTitle + ": " + props)` where `props` joins the
top-level `error.property` names with commas. -/
def validateClassInstanceAssessment (inst_ : AssessmentT) (options : VOptions)
    (errorMsgTitle : String) : Except String AssessmentT :=
  let errors := validateFull inst_ (effWhitelist options) (effForbidNonWhitelisted options)
  if errors.length > 0 then
    .error (errorMsgTitle ++ ": " ++ String.intercalate "," (thrownProps errors))
  else
    .ok inst_

/-- `Assessment.prototype.validate` (src/index.ts lines 389-396). -/
def assessmentValidate (inst_ : AssessmentT) : Except String AssessmentT :=
  validateClassInstanceAssessment inst_ {}
    "The following field values do not meet constraints in Assessment"

/-- Which pipeline call threw: the transform (`parsePlainObject`) or the
validation (`entity.validate()`). -/
inductive PipeError where
  | transformError : String → PipeError
  | validationError : String → PipeError

/-- `Assessment.fromObject` (src/index.ts lines 380-387): transform the
raw tree, then validate the resulting entity; a transform throw
propagates before validation can start. -/
def fromObject (obj : Json) : Except PipeError AssessmentT :=
  match parsePlainObjectAssessment obj with
  | .error m => .error (.transformError m)
  | .ok entity =>
    match assessmentValidate entity with
    | .error m => .error (.validationError m)
    | .ok _ => .ok entity

/-- A decimal-digits-only property name (an array index in an error
tree). -/
def isIndexStr (s : String) : Bool :=
  !(s == "") && s.toList.all Char.isDigit

/-- Dotted/bracket path join: indices append as `[i]`, field names as
`.name`. -/
def joinPath (base child : String) : String :=
  if isIndexStr child then base ++ "[" ++ child ++ "]" else base ++ "." ++ child

mutual

/-- Modelled from the spec: the ordered list of full dotted/bracket
property paths of every violated constraint in an error tree (what the
spec says the ValidationError payload carries).  Declared for comparison
with `thrownProps`, the list the code actually emits. -/
def specFullPathsGo (base : String) : VError → List String
  | .mk p cs ch =>
    let path := if base == "" then p else joinPath base p
    (if cs.isEmpty then [] else [path]) ++ specFullPathsGoList path ch

/-- Modelled from the spec: full violation paths of a list of sibling
error nodes under a common base path. -/
def specFullPathsGoList (base : String) : List VError → List String
  | [] => []
  | e :: es => specFullPathsGo base e ++ specFullPathsGoList base es

end

/-- Modelled from the spec: full violation paths of a whole error
list. -/
def specFullPaths (errs : List VError) : List String :=
  (errs.map (specFullPathsGo "")).flatten

/-- The three-message sample exchange the repository feeds to
`Assessment.fromObject` (src/index.ts lines 399-480). -/
def sampleObj : Json :=
  .obj [("chatLogs", .arr [
    .obj [
      ("data", .obj [
        ("options", .arr [
          .obj [("next", .str "5f77dd133075f3b845b19c02"), ("id", .str "0"),
                ("text", .str ""), ("value", .str "0")]]),
        ("masterId", .str "greeting"),
        ("types", .arr [.str "HINT"]),
        ("_id", .str "5f77dd133075f3b845b19c01"),
        ("contents", .arr [
          .obj [("value", .str "Hey Tony, congratulations on your new role with Woolworths, Australia\x27s #1 trusted brand!"),
                ("types", .arr [.str "TEXT"])]])]),
      ("sender", .str "AGENT"),
      ("id", .str "bc12520c-9e9c-4ac0-971e-528d2dcafb2a")],
    .obj [
      ("timeTaken", .num 54321),
      ("userAgent", .str "Mozilla/5.0 (Windows NT 6.1; Win64; x64; rv:47.0) Gecko/20100101 Firefox/47.0"),
      ("id", .str "db6489af-636f-4f05-a642-96c98fbcb36c"),
      ("data", .obj [
        ("_id", .str "6021f9ebb02141003c057051"),
        ("text", .str "I have 10 years of experience in personal finance management, and I have assisted 45 repeat clients in increasing their capital by an average of 15% every year. As a financial analyst, I utilized visual growth charts to show my clients how each saving plan option can impact their goals."),
        ("question", .obj [
          ("usageWhitelist", .arr [.str "GENERAL_PY"]),
          ("masterId", .str "previous.work.exp"),
          ("types", .arr [.str "BUTTON_GROUP_QUESTION"]),
          ("_id", .str "5f7d0d27b89cf6d0ce033a25"),
          ("contents", .arr [
            .obj [("value", .str "Can you please describe your last work experience?"),
                  ("types", .arr [.str "TEXT"])]]),
          ("version", .num 1)]),
        ("value", .str "I have 10 years of experience in personal finance management, and I have assisted 45 repeat clients in increasing their capital by an average of 15% every year. As a financial analyst, I utilized visual growth charts to show my clients how each saving plan option can impact their goals.")]),
      ("sender", .str "CANDIDATE")],
    .obj [
      ("data", .obj [
        ("_id", .str "5f77dd133075f3b845b19d01"),
        ("masterId", .str "5f77dd133075f3b8450bc2a3"),
        ("types", .arr [.str "MCQ"]),
        ("contents", .arr [
          .obj [("value", .str "Are you hard working"),
                ("types", .arr [.str "TEXT"])]]),
        ("options", .arr [
          .obj [("id", .str "1"), ("text", .str "Yes"), ("value", .str "1")],
          .obj [("id", .str "2"), ("text", .str "No"), ("value", .str "2")]]),
        ("usageWhitelist", .arr [.str "GENERAL_PY", .str "SENSITIVE"])]),
      ("sender", .str "AGENT"),
      ("id", .str "25688f98-27a0-4641-a60f-98ea87825657")]])]

/-- Does the `question` slot of an `Answer` hold a `ButtonGroupQuestion`
instance? -/
def answerQuestionIsBGQ (a : AnswerT) : Bool :=
  match a.question with
  | .inst (.bq _) => true
  | _ => false

/-- The checks of the concrete sample scenario: `fromObject` succeeds,
`chatLogs.length === 3`, `chatLogs[0].data` is a `Hint` instance,
`chatLogs[1].data` is an `Answer` instance whose `question` is a
`ButtonGroupQuestion` instance, and `chatLogs[2].data` is a `Question`
instance with exactly two transformed `QuestionOption` entries. -/
def sampleScenarioHolds : Bool :=
  match fromObject sampleObj with
  | .error _ => false
  | .ok a =>
    match a.chatLogs with
    | .items [.inst m0, .inst m1, .inst m2] =>
      (match m0.data with
       | .inst (.hint _) => true
       | _ => false)
      && (match m1.data with
          | .inst (.answer ans) => answerQuestionIsBGQ ans
          | _ => false)
      && (match m2.data with
          | .inst (.question q) =>
            (match q.options with
             | .items [.inst _, .inst _] => true
             | _ => false)
          | _ => false)
    | _ => false

/-- A raw tree whose first message has a `types` field that is a number:
the `includes` call inside the `Message.data` discriminator throws. -/
def badTypesObj : Json :=
  .obj [("chatLogs", .arr [
    .obj [("sender", .str "AGENT"), ("data", .obj [("types", .num 5)])]])]

/-- A raw tree with one valid message followed by a candidate answer
whose `value` and `text` are empty strings: two independent constraint
violations nested inside `chatLogs[1].data`. -/
def badAnswerObj : Json :=
  .obj [("chatLogs", .arr [
    .obj [("id", .str "a"), ("sender", .str "AGENT"),
          ("data", .obj [("_id", .str "5f77dd133075f3b845b19c01"),
                         ("types", .arr [.str "MCQ"]),
                         ("contents", .arr [])])],
    .obj [("id", .str "b"), ("sender", .str "CANDIDATE"),
          ("data", .obj [("_id", .str "6021f9ebb02141003c057051"),
                         ("question", .obj [("_id", .str "5f7d0d27b89cf6d0ce033a25"),
                                            ("types", .arr [.str "MCQ"]),
                                            ("contents", .arr [])]),
                         ("value", .str ""),
                         ("text", .str "")])]])]

/-- A single-message raw tree, structurally valid except that its `time`
field is the given raw string. -/
def timedObj (s : String) : Json :=
  .obj [("chatLogs", .arr [
    .obj [("id", .str "a"), ("sender", .str "AGENT"),
          ("data", .obj [("_id", .str "5f77dd133075f3b845b19c01"),
                         ("types", .arr [.str "MCQ"]),
                         ("contents", .arr [])]),
          ("time", .str s)]])]


/-- A value on which calling `includes` after an optional chain cannot
throw: nullish (short-circuit), an array, or a string. -/
def includesSafe : Option Json → Bool
  | none => true
  | some .null => true
  | some (.arr _) => true
  | some (.str _) => true
  | some _ => false

/-- The typed graph the transform produces from `timedObj s`, as a
function of the coerced date value. -/
def timedInst (d : JsDate) : AssessmentT :=
  { chatLogs := .items [.inst
      { id := some (.str "a"), sender := some (.str "AGENT"), label := none,
        data := .inst (.question
          { _id := some (.str "5f77dd133075f3b845b19c01"),
            types := some (.arr [.str "MCQ"]),
            contents := .items [],
            masterId := none, parentId := none, traits := .unset,
            rules := .unset, options := .unset, version := none,
            language := none }),
        userAgent := none, timeTaken := none, time := .date d }],
    extra := [] }

/-- The keys `Assessment` declares. -/
def assessmentKeys : List String := ["chatLogs"]

/-- The keys `Message` declares. -/
def messageKeys : List String :=
  ["id", "sender", "label", "data", "userAgent", "timeTaken", "time"]

/-- The keys `Answer` declares. -/
def answerKeys : List String := ["_id", "question", "value", "text"]

/-- The keys `Question` (and `ButtonGroupQuestion`) declare. -/
def questionKeys : List String :=
  ["_id", "types", "contents", "masterId", "parentId", "traits", "rules",
   "options", "version", "language"]

/-- The keys `Hint` (`BaseElement`) declares. -/
def hintKeys : List String := ["_id", "types", "contents"]

/-- The keys `QuestionContent` declares. -/
def questionContentKeys : List String := ["value", "types"]

/-- The keys `Trait` declares. -/
def traitKeys : List String := ["_id", "parentId", "name", "description"]

/-- The keys `QuestionRule` declares. -/
def ruleKeys : List String := ["name", "type", "value"]

/-- The keys `QuestionOption` declares. -/
def optionKeys : List String := ["id", "value", "text"]

/-- The keys `ButtonGroupOption` declares. -/
def buttonGroupOptionKeys : List String := ["id", "value", "text", "triggers", "style"]

/-- The keys `Trigger` declares. -/
def triggerKeys : List String := ["action"]

/-- The keys `Style` declares. -/
def styleKeys : List String := ["buttonType"]

/-- C1: for every raw message node, the `Message.data` payload variant is
resolved by this exact ordered precedence, first match wins: sender
strictly equal to `"CANDIDATE"` gives `Answer` regardless of the
payload's type tags; otherwise a `types` array containing `"HINT"` gives
`Hint` even when `"BUTTON_GROUP_QUESTION"` is also present; otherwise a
`types` array containing `"BUTTON_GROUP_QUESTION"` gives
`ButtonGroupQuestion`; otherwise `Question`. -/
theorem message_data_resolver_precedence (o : Json) (ts : List Json) :
    (jsStrictEqStr (chainField (some o) "sender") "CANDIDATE" = true →
      resolveMessageData (some o) = .ok .Answer)
    ∧ (jsStrictEqStr (chainField (some o) "sender") "CANDIDATE" = false →
       chainField (chainField (some o) "data") "types" = some (.arr ts) →
       ((arrIncludesStr ts "HINT" = true →
           resolveMessageData (some o) = .ok .Hint)
        ∧ (arrIncludesStr ts "HINT" = false →
           arrIncludesStr ts "BUTTON_GROUP_QUESTION" = true →
           resolveMessageData (some o) = .ok .ButtonGroupQuestion)
        ∧ (arrIncludesStr ts "HINT" = false →
           arrIncludesStr ts "BUTTON_GROUP_QUESTION" = false →
           resolveMessageData (some o) = .ok .Question))) := by
  refine ⟨fun hs => by simp [resolveMessageData, hs],
         fun hs ht =>
           ⟨fun h1 => by simp [resolveMessageData, hs, ht, chainIncludes, h1],
            fun h1 h2 => by simp [resolveMessageData, hs, ht, chainIncludes, h1, h2],
            fun h1 h2 => by simp [resolveMessageData, hs, ht, chainIncludes, h1, h2]⟩⟩

/-- Witness for C1 at a concrete message whose payload carries both the
HINT and the button-group tag: the `Hint` arm wins. -/
theorem message_data_resolver_precedence_witness :
    jsStrictEqStr (chainField (some (Json.obj
      [("sender", .str "AGENT"),
       ("data", .obj [("types", .arr [.str "HINT", .str "BUTTON_GROUP_QUESTION"])])])) "sender") "CANDIDATE" = false
    ∧ arrIncludesStr [.str "HINT", .str "BUTTON_GROUP_QUESTION"] "HINT" = true
    ∧ resolveMessageData (some (Json.obj
      [("sender", .str "AGENT"),
       ("data", .obj [("types", .arr [.str "HINT", .str "BUTTON_GROUP_QUESTION"])])])) = .ok .Hint :=
  ⟨rfl, rfl,
    ((message_data_resolver_precedence (Json.obj
      [("sender", .str "AGENT"),
       ("data", .obj [("types", .arr [.str "HINT", .str "BUTTON_GROUP_QUESTION"])])])
      [.str "HINT", .str "BUTTON_GROUP_QUESTION"]).2 rfl rfl).1 rfl⟩

/-- C5: for every raw `Answer` node whose embedded question has a `types`
array, the `question` field's variant is `ButtonGroupQuestion` exactly
when that array contains `"BUTTON_GROUP_QUESTION"`, and `Question`
otherwise; there is no HINT branch, so a question tagged `"HINT"` but not
button-group still resolves to plain `Question` — the asymmetry with the
`Message.data` resolver is preserved. -/
theorem answer_question_resolver_bgq_only (j : Json) (ts : List Json) (fs : List (String × Json)) :
    (chainField (chainField (some j) "question") "types" = some (.arr ts) →
      resolveAnswerQuestion (some j) = .ok (arrIncludesStr ts "BUTTON_GROUP_QUESTION"))
    ∧ (chainField (chainField (some j) "question") "types" = some (.arr ts) →
       arrIncludesStr ts "HINT" = true →
       arrIncludesStr ts "BUTTON_GROUP_QUESTION" = false →
       resolveAnswerQuestion (some j) = .ok false)
    ∧ (chainField (chainField (some j) "question") "types" = some (.arr ts) →
       jget j "question" = some (.obj fs) →
       parseAnswer j = .ok
         { _id := jget j "_id",
           question :=
             if arrIncludesStr ts "BUTTON_GROUP_QUESTION" then
               .inst (.bq (parseButtonGroupQuestion (.obj fs)))
             else
               .inst (.qn (parseQuestion (.obj fs))),
           value := jget j "value", text := jget j "text" }) := by
  refine ⟨fun ht => ?_, fun ht hh hb => ?_, fun ht hq => ?_⟩
  · simp [resolveAnswerQuestion, ht, chainIncludes]
  · simp [resolveAnswerQuestion, ht, chainIncludes, hb]
  · have hr : resolveAnswerQuestion (some j) = .ok (arrIncludesStr ts "BUTTON_GROUP_QUESTION") := by
      simp [resolveAnswerQuestion, ht, chainIncludes]
    unfold parseAnswer
    rw [hr]
    cases hb : arrIncludesStr ts "BUTTON_GROUP_QUESTION" <;>
      simp [hb, hq, typedValOf]

/-- Witness for C5 at a concrete answer whose question is tagged with
HINT only: the resolver still picks plain `Question`. -/
theorem answer_question_resolver_bgq_only_witness :
    chainField (chainField (some (Json.obj
      [("question", .obj [("types", .arr [.str "HINT"])])])) "question") "types"
      = some (.arr [.str "HINT"])
    ∧ arrIncludesStr [Json.str "HINT"] "HINT" = true
    ∧ arrIncludesStr [Json.str "HINT"] "BUTTON_GROUP_QUESTION" = false
    ∧ resolveAnswerQuestion (some (Json.obj
        [("question", .obj [("types", .arr [.str "HINT"])])])) = .ok false :=
  ⟨rfl, rfl, rfl,
    (answer_question_resolver_bgq_only (Json.obj
      [("question", .obj [("types", .arr [.str "HINT"])])]) [.str "HINT"] []).2.1 rfl rfl rfl⟩

/-- C6 counterexample: the resolvers are not exception-free on every
input shape — a `types` field holding a number (no `includes` method)
makes both discriminator callbacks throw a `TypeError`. -/
theorem resolver_throws_on_nonarray_types_cex :
    resolveMessageData (some (Json.obj
      [("sender", .str "AGENT"), ("data", .obj [("types", .num 5)])]))
      = .error "TypeError: includes is not a function"
    ∧ resolveAnswerQuestion (some (Json.obj
        [("question", .obj [("types", .bool true)])]))
      = .error "TypeError: includes is not a function" :=
  ⟨rfl, rfl⟩

/-- `chainIncludes` returns without throwing exactly on the safe
shapes. -/
theorem chainIncludes_safe (v : Option Json) (needle : String)
    (h : includesSafe v = true) : ∃ b, chainIncludes v needle = .ok b := by
  rcases v with _ | j
  · exact ⟨false, rfl⟩
  · cases j <;> simp_all [includesSafe, chainIncludes]

/-- C6 (amended): both discriminator resolvers are pure total functions
of the raw sibling node that return exactly one variant and never throw,
provided every `types` value the optional chain reaches is absent,
`null`, an array, or a string (in particular absent `sender`, `data`,
`question` or `types` fields behave as "does not contain", landing in
the default arm); a non-nullish, non-array, non-string `types` (number,
boolean, nested object) makes the `includes` call throw. -/
theorem resolvers_total_on_safe_shapes (o j : Json) :
    (includesSafe (chainField (chainField (some o) "data") "types") = true →
      ∃ v, resolveMessageData (some o) = .ok v)
    ∧ (includesSafe (chainField (chainField (some j) "question") "types") = true →
      ∃ b, resolveAnswerQuestion (some j) = .ok b)
    ∧ (chainField (chainField (some o) "data") "types" = none →
       jsStrictEqStr (chainField (some o) "sender") "CANDIDATE" = false →
       resolveMessageData (some o) = .ok .Question) := by
  refine ⟨fun hsafe => ?_, fun hsafe => ?_, fun hnone hs => ?_⟩
  · by_cases hc : jsStrictEqStr (chainField (some o) "sender") "CANDIDATE" = true
    · exact ⟨.Answer, by simp [resolveMessageData, hc]⟩
    · rw [Bool.not_eq_true] at hc
      obtain ⟨b1, hb1⟩ := chainIncludes_safe _ "HINT" hsafe
      obtain ⟨b2, hb2⟩ := chainIncludes_safe _ "BUTTON_GROUP_QUESTION" hsafe
      cases b1
      · cases b2
        · exact ⟨.Question, by simp [resolveMessageData, hc, hb1, hb2]⟩
        · exact ⟨.ButtonGroupQuestion, by simp [resolveMessageData, hc, hb1, hb2]⟩
      · exact ⟨.Hint, by simp [resolveMessageData, hc, hb1]⟩
  · obtain ⟨b, hb⟩ := chainIncludes_safe _ "BUTTON_GROUP_QUESTION" hsafe
    exact ⟨b, hb⟩
  · simp [resolveMessageData, hs, hnone, chainIncludes]

/-- Witness for C6 (amended) at a message with no `data` at all and an
answer with no `question`: both resolvers return their default without
throwing. -/
theorem resolvers_total_on_safe_shapes_witness :
    includesSafe (chainField (chainField (some (Json.obj [("id", .str "x")])) "data") "types") = true
    ∧ (∃ v, resolveMessageData (some (Json.obj [("id", .str "x")])) = .ok v)
    ∧ (∃ b, resolveAnswerQuestion (some (Json.obj [("id", .str "x")])) = .ok b) :=
  ⟨rfl,
    (resolvers_total_on_safe_shapes (Json.obj [("id", .str "x")]) (Json.obj [("id", .str "x")])).1 rfl,
    (resolvers_total_on_safe_shapes (Json.obj [("id", .str "x")]) (Json.obj [("id", .str "x")])).2.1 rfl⟩

/-- C9: on the concrete three-message sample embedded in the source,
`Assessment.fromObject` transforms and validates successfully, the
resulting `chatLogs` has exactly three entries, `chatLogs[0].data` is a
`Hint` instance, `chatLogs[1].data` is an `Answer` instance whose
`question` is a `ButtonGroupQuestion` instance, and `chatLogs[2].data`
is a `Question` instance with exactly two `QuestionOption` entries. -/
theorem sample_exchange_parses_and_validates : sampleScenarioHolds = true := by decide

/-- C3 counterexample: an uncoercible `time` string does not make the
pipeline fail at the transform stage — the transform succeeds (producing
an Invalid Date) and the failure the caller sees is a validation error,
so "validation is never attempted" is false for this input. -/
theorem uncoercible_date_not_transform_error_cex :
    parsePlainObjectAssessment (timedObj "garbage") = .ok (timedInst none)
    ∧ fromObject (timedObj "garbage")
        = .error (.validationError
            "The following field values do not meet constraints in Assessment: chatLogs") :=
  ⟨rfl, rfl⟩

/-- C3 (amended): a raw input whose `time` field is an uncoercible date
string transforms successfully (the `Date` coercion yields an Invalid
Date and throws nothing), and the failure surfaces at the validation
stage as an `isDate` violation on the `time` property; the two failure
classes remain distinguishable, but an uncoercible date belongs to the
validation class, not the transform class. -/
theorem uncoercible_date_fails_at_validation (s : String) (h : dateParse s = none) :
    parsePlainObjectAssessment (timedObj s) = .ok (timedInst none)
    ∧ fromObject (timedObj s)
        = .error (.validationError
            "The following field values do not meet constraints in Assessment: chatLogs")
    ∧ specFullPaths (validateFull (timedInst none) true true) = ["chatLogs[0].time"] := by
  have hp : parsePlainObjectAssessment (timedObj s) = .ok (timedInst (dateParse s)) := rfl
  rw [h] at hp
  refine ⟨hp, ?_, by decide⟩
  unfold fromObject
  rw [hp]
  rfl

/-- Witness for C3 (amended) at the uncoercible string `"garbage"`. -/
theorem uncoercible_date_fails_at_validation_witness :
    dateParse "garbage" = none
    ∧ (parsePlainObjectAssessment (timedObj "garbage") = .ok (timedInst none)
       ∧ fromObject (timedObj "garbage")
           = .error (.validationError
               "The following field values do not meet constraints in Assessment: chatLogs")
       ∧ specFullPaths (validateFull (timedInst none) true true) = ["chatLogs[0].time"]) :=
  ⟨rfl, uncoercible_date_fails_at_validation "garbage" rfl⟩

/-- A pattern starting a list is found by `subList`. -/
theorem subList_self_append (p rest : List Char) : subList p (p ++ rest) = true := by
  have hstarts : ∀ (q tail : List Char), startsWithL q (q ++ tail) = true := by
    intro q
    induction q with
    | nil => intro tail; rfl
    | cons x xs ih => intro tail; simp [startsWithL, ih]
  cases p with
  | nil => cases rest <;> simp [subList, startsWithL]
  | cons c cs =>
    have hs := hstarts (c :: cs) rest
    simp only [subList, List.cons_append, Bool.or_eq_true]
    exact Or.inl hs

/-- `subList` is stable under prepending context. -/
theorem subList_append_left (pre l p : List Char) (h : subList p l = true) :
    subList p (pre ++ l) = true := by
  induction pre with
  | nil => simpa using h
  | cons c cs ih => simp [subList, ih]

/-- C4 counterexample: when the type coercion throws during transform
(here: the `Message.data` discriminator's `includes` call throwing on a
numeric `types`), the error `parsePlainObject` propagates carries only
the root failure message — the target type name `Assessment` does not
occur in it. -/
theorem transform_error_lacks_type_name_cex :
    parsePlainObjectAssessment badTypesObj = .error "TypeError: includes is not a function"
    ∧ containsSub "TypeError: includes is not a function" "Assessment" = false :=
  ⟨rfl, rfl⟩

/-- C4 (amended): whenever the transform throws, `parsePlainObject`
fails with an error whose message is exactly the root coercion failure
message; the target type's name appears only in the separately logged
line (`Parsing object to Assessment failed: ...`), not on the propagated
error. -/
theorem transform_error_propagates_root_message (o : Json) (m : String)
    (h : parseAssessment o = .error m) :
    parsePlainObjectAssessment o = .error m
    ∧ containsSub (parseFailLogMsg "Assessment" m) "Assessment" = true := by
  constructor
  · unfold parsePlainObjectAssessment
    rw [h]
  · show subList "Assessment".toList (parseFailLogMsg "Assessment" m).toList = true
    have hsplit : (parseFailLogMsg "Assessment" m).toList
        = "Parsing object to ".toList
          ++ ("Assessment".toList ++ (" failed: " ++ jsonStringifyStr m).toList) := by
      simp [parseFailLogMsg, String.toList, String.data_append, List.append_assoc]
    rw [hsplit]
    exact subList_append_left _ _ _ (subList_self_append _ _)

/-- Witness for C4 (amended) at the numeric-`types` input. -/
theorem transform_error_propagates_root_message_witness :
    parseAssessment badTypesObj = .error "TypeError: includes is not a function"
    ∧ (parsePlainObjectAssessment badTypesObj = .error "TypeError: includes is not a function"
       ∧ containsSub (parseFailLogMsg "Assessment" "TypeError: includes is not a function")
           "Assessment" = true) :=
  ⟨rfl, transform_error_propagates_root_message badTypesObj
    "TypeError: includes is not a function" rfl⟩

/-- `validateClassInstance` returns the very instance it was given when
it returns at all. -/
theorem validateClassInstanceAssessment_ok (a b : AssessmentT) (o : VOptions) (t : String)
    (h : validateClassInstanceAssessment a o t = .ok b) : b = a := by
  unfold validateClassInstanceAssessment at h
  dsimp only at h
  split at h
  · exact absurd h (by simp)
  · exact (Except.ok.inj h).symm

/-- C7: `Assessment.fromObject` runs the transform first and the
validation second: a transform failure propagates as the transform
failure class with validation never reached, a transform success hands
the entity to `validate`, and a returned entity is exactly one that both
passed the transform and passed validation. -/
theorem from_object_transform_then_validate :
    (∀ (o : Json) (m : String), parsePlainObjectAssessment o = .error m →
        fromObject o = .error (.transformError m))
    ∧ (∀ (o : Json) (e : AssessmentT), parsePlainObjectAssessment o = .ok e →
        fromObject o = (match assessmentValidate e with
                        | .error m => .error (.validationError m)
                        | .ok _ => .ok e))
    ∧ (∀ (o : Json) (e : AssessmentT), fromObject o = .ok e →
        parsePlainObjectAssessment o = .ok e ∧ assessmentValidate e = .ok e) := by
  refine ⟨fun o m h => ?_, fun o e h => ?_, fun o e h => ?_⟩
  · unfold fromObject
    rw [h]
  · unfold fromObject
    rw [h]
  · unfold fromObject at h
    cases hp : parsePlainObjectAssessment o with
    | error m => rw [hp] at h; exact absurd h (by simp)
    | ok e' =>
      rw [hp] at h
      dsimp only at h
      cases hv : assessmentValidate e' with
      | error m => rw [hv] at h; exact absurd h (by simp)
      | ok x =>
        rw [hv] at h
        have he : e' = e := by
          simpa using h
        have hx : x = e' := validateClassInstanceAssessment_ok e' x _ _ hv
        refine ⟨by rw [he], ?_⟩
        rw [← he, hv, hx]

/-- Witness for C7 at the throwing input: the transform failure
propagates as a transform error. -/
theorem from_object_transform_then_validate_witness :
    parsePlainObjectAssessment badTypesObj = .error "TypeError: includes is not a function"
    ∧ fromObject badTypesObj
        = .error (.transformError "TypeError: includes is not a function") :=
  ⟨rfl, from_object_transform_then_validate.1 badTypesObj
    "TypeError: includes is not a function" rfl⟩

/-- C2 counterexample: on a graph with two independent nested constraint
violations (empty `value` and empty `text` inside `chatLogs[1].data`),
the ValidationError's property list is exactly `["chatLogs"]` — the
full dotted/bracket paths of the two violations (computed by the
spec-side `specFullPaths`) do not appear in it, so the payload carries
only top-level property names and rolls every nested violation into
one entry. -/
theorem validation_error_lists_top_level_only_cex :
    (match parsePlainObjectAssessment badAnswerObj with
     | .ok e =>
         thrownProps (validateFull e true true) = ["chatLogs"]
         ∧ specFullPaths (validateFull e true true)
             = ["chatLogs[1].data.value", "chatLogs[1].data.text"]
         ∧ ¬ ("chatLogs[1].data.value" ∈ thrownProps (validateFull e true true))
         ∧ ¬ ("chatLogs[1].data.text" ∈ thrownProps (validateFull e true true))
     | .error _ => False)
    ∧ fromObject badAnswerObj
        = .error (.validationError
            "The following field values do not meet constraints in Assessment: chatLogs") :=
  ⟨⟨by decide, by decide, by decide, by decide⟩, rfl⟩

/-- Every `checkTypedArrProp` result is empty or a single error at the
given property name. -/
theorem checkTypedArrProp_shape {α : Type} (name : String) (opt : Bool)
    (v : TypedArrVal α) (inner : α → List VError) :
    checkTypedArrProp name opt v inner = []
    ∨ ∃ cs ch, checkTypedArrProp name opt v inner = [VError.mk name cs ch] := by
  unfold checkTypedArrProp
  rcases v with _ | xs | j
  · by_cases h : opt <;> simp [h]
  · dsimp only
    split
    · exact Or.inl rfl
    · exact Or.inr ⟨_, _, rfl⟩
  · cases j
    case null => by_cases h : opt <;> simp [h]
    all_goals exact Or.inr ⟨_, _, rfl⟩

/-- C2 (amended): the single ValidationError carries, after its title,
the ordered list of top-level property names in violation: one
`whitelistValidation` entry per non-whitelisted property of the
instance first (the executor runs the whitelist check before the
per-property loop), followed by at most the single entry `"chatLogs"`
into which every schema violation anywhere in the graph — nested ones
included — is rolled up (never expanded to dotted or bracketed
paths). -/
theorem validation_error_top_level_aggregation (a : AssessmentT) :
    (validateAssessment a = []
      ∨ ∃ cs ch, validateAssessment a = [VError.mk "chatLogs" cs ch])
    ∧ thrownProps (validateFull a true true)
        = a.extra ++ thrownProps (validateAssessment a) := by
  constructor
  · exact checkTypedArrProp_shape "chatLogs" true a.chatLogs validateMessage
  · unfold validateFull thrownProps
    simp only [Bool.and_self, if_true, List.map_append, List.map_map]
    have hcomp : (VError.property ∘ fun p => VError.mk p ["whitelistValidation"] []) = id := rfl
    rw [hcomp, List.map_id]

/-- C10: with default options, `validateClassInstance` runs with
`whitelist` and `forbidNonWhitelisted` both enabled, so validating any
`Assessment` instance that carries a property with no schema decorator
fails with a ValidationError whose property list includes that
property — even though the transform stage would have stripped it. -/
theorem default_options_forbid_undecorated_props (a : AssessmentT) (p : String)
    (t : String) (h : p ∈ a.extra) :
    effWhitelist {} = true
    ∧ effForbidNonWhitelisted {} = true
    ∧ (∃ m, validateClassInstanceAssessment a {} t = .error m)
    ∧ p ∈ thrownProps (validateFull a (effWhitelist {}) (effForbidNonWhitelisted {})) := by
  have hmem : p ∈ thrownProps (validateFull a true true) := by
    unfold validateFull thrownProps
    simp only [Bool.and_self, if_true, List.map_append, List.map_map]
    refine List.mem_append_left _ ?_
    exact List.mem_map.mpr ⟨p, h, rfl⟩
  have hlen : (validateFull a true true).length > 0 := by
    have : thrownProps (validateFull a true true) ≠ [] := by
      intro hnil
      rw [hnil] at hmem
      exact absurd hmem (List.not_mem_nil p)
    unfold thrownProps at this
    have hne : validateFull a true true ≠ [] := by
      intro hnil
      exact this (by rw [hnil]; rfl)
    exact List.length_pos.mpr hne
  refine ⟨rfl, rfl, ⟨t ++ ": " ++ String.intercalate "," (thrownProps (validateFull a true true)), ?_⟩, hmem⟩
  unfold validateClassInstanceAssessment
  dsimp only [effWhitelist, effForbidNonWhitelisted, Option.getD]
  rw [if_pos hlen]

/-- Witness for C10 at a hand-built empty instance carrying the
undecorated property `"foo"`. -/
theorem default_options_forbid_undecorated_props_witness :
    ("foo" ∈ (AssessmentT.mk .unset ["foo"]).extra)
    ∧ (effWhitelist {} = true
       ∧ effForbidNonWhitelisted {} = true
       ∧ (∃ m, validateClassInstanceAssessment (AssessmentT.mk .unset ["foo"]) {}
             defaultErrorMsgTitle = .error m)
       ∧ "foo" ∈ thrownProps (validateFull (AssessmentT.mk .unset ["foo"])
             (effWhitelist {}) (effForbidNonWhitelisted {}))) :=
  ⟨by decide,
    default_options_forbid_undecorated_props (AssessmentT.mk .unset ["foo"]) "foo"
      defaultErrorMsgTitle (by decide)⟩

/-- Reading a declared key is unaffected by inserting a different key. -/
theorem jget_insertKey_ne (o v : Json) {k k' : String} (h : k ≠ k') :
    jget (insertKey o k v) k' = jget o k' := by
  cases o
  case obj fs =>
    show ((((k, v) :: fs).find? (fun p => p.1 == k')).map (fun p => p.2)) = jget (Json.obj fs) k'
    rw [List.find?_cons_of_neg]
    · rfl
    · simp [h]
  all_goals rfl

/-- Optional-chain access to a declared key is unaffected by inserting a
different key. -/
theorem chainField_insertKey_ne (o v : Json) {k k' : String} (h : k ≠ k') :
    chainField (some (insertKey o k v)) k' = chainField (some o) k' := by
  cases o
  case obj fs => exact jget_insertKey_ne (Json.obj fs) v h
  all_goals rfl

/-- The `Message.data` discriminator only reads `sender` and `data`. -/
theorem resolveMessageData_insertKey (o v : Json) {k : String}
    (hs : k ≠ "sender") (hd : k ≠ "data") :
    resolveMessageData (some (insertKey o k v)) = resolveMessageData (some o) := by
  unfold resolveMessageData
  rw [chainField_insertKey_ne o v hs, chainField_insertKey_ne o v hd]

/-- The `Answer.question` discriminator only reads `question`. -/
theorem resolveAnswerQuestion_insertKey (o v : Json) {k : String}
    (hq : k ≠ "question") :
    resolveAnswerQuestion (some (insertKey o k v)) = resolveAnswerQuestion (some o) := by
  unfold resolveAnswerQuestion
  rw [chainField_insertKey_ne o v hq]

/-- `QuestionContent` transform ignores undeclared keys. -/
theorem parseQuestionContent_insertKey (o v : Json) {k : String}
    (h : k ∉ questionContentKeys) :
    parseQuestionContent (insertKey o k v) = parseQuestionContent o := by
  simp only [questionContentKeys, List.mem_cons, List.not_mem_nil, or_false, not_or] at h
  obtain ⟨h1, h2⟩ := h
  unfold parseQuestionContent
  rw [jget_insertKey_ne o v h1, jget_insertKey_ne o v h2]

/-- `Trait` transform ignores undeclared keys. -/
theorem parseTrait_insertKey (o v : Json) {k : String} (h : k ∉ traitKeys) :
    parseTrait (insertKey o k v) = parseTrait o := by
  simp only [traitKeys, List.mem_cons, List.not_mem_nil, or_false, not_or] at h
  obtain ⟨h1, h2, h3, h4⟩ := h
  unfold parseTrait
  rw [jget_insertKey_ne o v h1, jget_insertKey_ne o v h2,
      jget_insertKey_ne o v h3, jget_insertKey_ne o v h4]

/-- `QuestionRule` transform ignores undeclared keys. -/
theorem parseQuestionRule_insertKey (o v : Json) {k : String} (h : k ∉ ruleKeys) :
    parseQuestionRule (insertKey o k v) = parseQuestionRule o := by
  simp only [ruleKeys, List.mem_cons, List.not_mem_nil, or_false, not_or] at h
  obtain ⟨h1, h2, h3⟩ := h
  unfold parseQuestionRule
  rw [jget_insertKey_ne o v h1, jget_insertKey_ne o v h2, jget_insertKey_ne o v h3]

/-- `QuestionOption` transform ignores undeclared keys. -/
theorem parseQuestionOption_insertKey (o v : Json) {k : String} (h : k ∉ optionKeys) :
    parseQuestionOption (insertKey o k v) = parseQuestionOption o := by
  simp only [optionKeys, List.mem_cons, List.not_mem_nil, or_false, not_or] at h
  obtain ⟨h1, h2, h3⟩ := h
  unfold parseQuestionOption
  rw [jget_insertKey_ne o v h1, jget_insertKey_ne o v h2, jget_insertKey_ne o v h3]

/-- `Trigger` transform ignores undeclared keys. -/
theorem parseTrigger_insertKey (o v : Json) {k : String} (h : k ∉ triggerKeys) :
    parseTrigger (insertKey o k v) = parseTrigger o := by
  simp only [triggerKeys, List.mem_cons, List.not_mem_nil, or_false, not_or] at h
  unfold parseTrigger
  rw [jget_insertKey_ne o v h]

/-- `Style` transform ignores undeclared keys. -/
theorem parseStyle_insertKey (o v : Json) {k : String} (h : k ∉ styleKeys) :
    parseStyle (insertKey o k v) = parseStyle o := by
  simp only [styleKeys, List.mem_cons, List.not_mem_nil, or_false, not_or] at h
  unfold parseStyle
  rw [jget_insertKey_ne o v h]

/-- `ButtonGroupOption` transform ignores undeclared keys. -/
theorem parseButtonGroupOption_insertKey (o v : Json) {k : String}
    (h : k ∉ buttonGroupOptionKeys) :
    parseButtonGroupOption (insertKey o k v) = parseButtonGroupOption o := by
  simp only [buttonGroupOptionKeys, List.mem_cons, List.not_mem_nil, or_false, not_or] at h
  obtain ⟨h1, h2, h3, h4, h5⟩ := h
  unfold parseButtonGroupOption
  rw [jget_insertKey_ne o v h1, jget_insertKey_ne o v h2, jget_insertKey_ne o v h3,
      jget_insertKey_ne o v h4, jget_insertKey_ne o v h5]

/-- `Hint` transform ignores undeclared keys. -/
theorem parseHint_insertKey (o v : Json) {k : String} (h : k ∉ hintKeys) :
    parseHint (insertKey o k v) = parseHint o := by
  simp only [hintKeys, List.mem_cons, List.not_mem_nil, or_false, not_or] at h
  obtain ⟨h1, h2, h3⟩ := h
  unfold parseHint
  rw [jget_insertKey_ne o v h1, jget_insertKey_ne o v h2, jget_insertKey_ne o v h3]

/-- `Question` transform ignores undeclared keys. -/
theorem parseQuestion_insertKey (o v : Json) {k : String} (h : k ∉ questionKeys) :
    parseQuestion (insertKey o k v) = parseQuestion o := by
  simp only [questionKeys, List.mem_cons, List.not_mem_nil, or_false, not_or] at h
  obtain ⟨h1, h2, h3, h4, h5, h6, h7, h8, h9, h10⟩ := h
  unfold parseQuestion
  rw [jget_insertKey_ne o v h1, jget_insertKey_ne o v h2, jget_insertKey_ne o v h3,
      jget_insertKey_ne o v h4, jget_insertKey_ne o v h5, jget_insertKey_ne o v h6,
      jget_insertKey_ne o v h7, jget_insertKey_ne o v h8, jget_insertKey_ne o v h9,
      jget_insertKey_ne o v h10]

/-- `ButtonGroupQuestion` transform ignores undeclared keys. -/
theorem parseButtonGroupQuestion_insertKey (o v : Json) {k : String}
    (h : k ∉ questionKeys) :
    parseButtonGroupQuestion (insertKey o k v) = parseButtonGroupQuestion o := by
  simp only [questionKeys, List.mem_cons, List.not_mem_nil, or_false, not_or] at h
  obtain ⟨h1, h2, h3, h4, h5, h6, h7, h8, h9, h10⟩ := h
  unfold parseButtonGroupQuestion
  rw [jget_insertKey_ne o v h1, jget_insertKey_ne o v h2, jget_insertKey_ne o v h3,
      jget_insertKey_ne o v h4, jget_insertKey_ne o v h5, jget_insertKey_ne o v h6,
      jget_insertKey_ne o v h7, jget_insertKey_ne o v h8, jget_insertKey_ne o v h9,
      jget_insertKey_ne o v h10]

/-- `Answer` transform ignores undeclared keys. -/
theorem parseAnswer_insertKey (o v : Json) {k : String} (h : k ∉ answerKeys) :
    parseAnswer (insertKey o k v) = parseAnswer o := by
  simp only [answerKeys, List.mem_cons, List.not_mem_nil, or_false, not_or] at h
  obtain ⟨h1, h2, h3, h4⟩ := h
  unfold parseAnswer
  rw [resolveAnswerQuestion_insertKey o v h2, jget_insertKey_ne o v h1,
      jget_insertKey_ne o v h2, jget_insertKey_ne o v h3, jget_insertKey_ne o v h4]

/-- `Message` transform ignores undeclared keys. -/
theorem parseMessage_insertKey (o v : Json) {k : String} (h : k ∉ messageKeys) :
    parseMessage (insertKey o k v) = parseMessage o := by
  simp only [messageKeys, List.mem_cons, List.not_mem_nil, or_false, not_or] at h
  obtain ⟨h1, h2, h3, h4, h5, h6, h7⟩ := h
  unfold parseMessage
  rw [resolveMessageData_insertKey o v h2 h4, jget_insertKey_ne o v h1,
      jget_insertKey_ne o v h2, jget_insertKey_ne o v h3, jget_insertKey_ne o v h4,
      jget_insertKey_ne o v h5, jget_insertKey_ne o v h6, jget_insertKey_ne o v h7]

/-- `Assessment` transform ignores undeclared keys. -/
theorem parseAssessment_insertKey (o v : Json) {k : String} (h : k ∉ assessmentKeys) :
    parseAssessment (insertKey o k v) = parseAssessment o := by
  simp only [assessmentKeys, List.mem_cons, List.not_mem_nil, or_false, not_or] at h
  unfold parseAssessment
  rw [jget_insertKey_ne o v h]

/-- C8: adding a key that the schema does not declare, at any level
(each conjunct covers the transform of the class whose raw node is being
extended, so nested extras are covered by the conjunct of the nested
class), leaves the transform's result unchanged — in particular it never
turns a success into a failure and the extra key is absent from the
typed result, which carries no undecorated property (`extra = []`) and
therefore never surfaces the key at validation either (`fromObject`
unchanged). -/
theorem transform_ignores_undeclared_keys (o : Json) (k : String) (v : Json) :
    (k ∉ assessmentKeys → parseAssessment (insertKey o k v) = parseAssessment o)
    ∧ (k ∉ assessmentKeys → fromObject (insertKey o k v) = fromObject o)
    ∧ (k ∉ messageKeys → parseMessage (insertKey o k v) = parseMessage o)
    ∧ (k ∉ answerKeys → parseAnswer (insertKey o k v) = parseAnswer o)
    ∧ (k ∉ questionKeys → parseQuestion (insertKey o k v) = parseQuestion o)
    ∧ (k ∉ questionKeys → parseButtonGroupQuestion (insertKey o k v) = parseButtonGroupQuestion o)
    ∧ (k ∉ hintKeys → parseHint (insertKey o k v) = parseHint o)
    ∧ (k ∉ questionContentKeys → parseQuestionContent (insertKey o k v) = parseQuestionContent o)
    ∧ (k ∉ optionKeys → parseQuestionOption (insertKey o k v) = parseQuestionOption o)
    ∧ (k ∉ buttonGroupOptionKeys → parseButtonGroupOption (insertKey o k v) = parseButtonGroupOption o)
    ∧ (k ∉ traitKeys → parseTrait (insertKey o k v) = parseTrait o)
    ∧ (k ∉ ruleKeys → parseQuestionRule (insertKey o k v) = parseQuestionRule o)
    ∧ (k ∉ triggerKeys → parseTrigger (insertKey o k v) = parseTrigger o)
    ∧ (k ∉ styleKeys → parseStyle (insertKey o k v) = parseStyle o)
    ∧ (∀ e, parseAssessment o = .ok e → e.extra = []) := by
  refine ⟨fun h => parseAssessment_insertKey o v h, fun h => ?_,
    fun h => parseMessage_insertKey o v h, fun h => parseAnswer_insertKey o v h,
    fun h => parseQuestion_insertKey o v h, fun h => parseButtonGroupQuestion_insertKey o v h,
    fun h => parseHint_insertKey o v h, fun h => parseQuestionContent_insertKey o v h,
    fun h => parseQuestionOption_insertKey o v h, fun h => parseButtonGroupOption_insertKey o v h,
    fun h => parseTrait_insertKey o v h, fun h => parseQuestionRule_insertKey o v h,
    fun h => parseTrigger_insertKey o v h, fun h => parseStyle_insertKey o v h,
    fun e he => ?_⟩
  · unfold fromObject parsePlainObjectAssessment
    rw [parseAssessment_insertKey o v h]
  · unfold parseAssessment at he
    cases htl : typedArrOfE parseMessage (jget o "chatLogs") with
    | error m => rw [htl] at he; exact absurd he (by simp)
    | ok logs =>
      rw [htl] at he
      dsimp only at he
      have hinj := Except.ok.inj he
      rw [← hinj]

/-- Witness for C8: inserting the unknown key `"unknownKey"` into the
sample leaves the transform unchanged. -/
theorem transform_ignores_undeclared_keys_witness :
    ("unknownKey" ∉ assessmentKeys)
    ∧ parseAssessment (insertKey sampleObj "unknownKey" (Json.str "x"))
        = parseAssessment sampleObj :=
  ⟨by decide,
    (transform_ignores_undeclared_keys sampleObj "unknownKey" (Json.str "x")).1 (by decide)⟩
